import Mathlib

/-!
Verification development for the fixture/analysis core of `src/app.py`
(classes `EnhancedFootballAPI` and `AdvancedAnalyzer`).

Modelling conventions:
* Python floats are modelled by exact rationals; Python's `round(x, d)`
  (round-half-to-even) is modelled by `pyRound`.
* Every random draw is an explicitly injected parameter (`StatsRand`,
  `SynthRand`, the uniform draw `u`), with a validity predicate stating the
  range the corresponding `random` call draws from.
* The process-wide dict `AdvancedAnalyzer.cache` is modelled by explicit
  state passing over an association list (CPython dicts preserve insertion
  order; a fresh key is appended at the end).
* Network-dependent provider adapters are modelled by their observable
  outcome (`Except` = raised exception / returned list), matching the
  per-source `try`/`except` isolation in `get_todays_matches`.
-/

/-- Round half to even to the nearest integer, the behaviour of Python's
`round` on exact values. -/
def rte (q : ℚ) : ℤ :=
  let n := ⌊q⌋
  if q - n < 1/2 then n
  else if 1/2 < q - n then n + 1
  else if n % 2 = 0 then n else n + 1

/-- Python's `round(x, d)` modelled on rationals. -/
def pyRound (q : ℚ) (d : ℕ) : ℚ := (rte (q * 10 ^ d) : ℚ) / 10 ^ d

/-- A recent-form result, the sample space of `random.choices(['W','D','L'], ...)`
in `generate_realistic_form` (all three outcomes have positive weight in every
rating tier, so any sequence is a possible draw). -/
inductive FormR
| W
| D
| L
deriving DecidableEq

/-- Display letter of a form result, as used in `generate_realistic_form`. -/
def formChar : FormR → String
  | .W => "W"
  | .D => "D"
  | .L => "L"

/-- The team-statistics record built by `AdvancedAnalyzer.generate_advanced_stats`
(`src/app.py` lines 551-560). -/
structure TeamStats where
  recentForm : String
  goalsFor : ℚ
  goalsAgainst : ℚ
  homeWinRate : ℤ
  awayWinRate : ℤ
  cleanSheets : ℤ
  confidence : ℤ
  rating : ℤ
deriving DecidableEq

/-- The `elite_teams` table of `generate_advanced_stats` (lines 531-536). -/
def elite_teams : List (String × ℤ) :=
  [("Real Madrid", 95), ("Manchester City", 94), ("Barcelona", 92), ("Bayern Munich", 93),
   ("PSG", 90), ("Liverpool", 91), ("Arsenal", 88), ("Chelsea", 87), ("Manchester United", 86),
   ("Inter Milan", 85), ("AC Milan", 84), ("Juventus", 83), ("Atletico Madrid", 87),
   ("Borussia Dortmund", 82), ("Napoli", 84), ("Tottenham", 81)]

/-- The `good_teams` table of `generate_advanced_stats` (lines 538-543). -/
def good_teams : List (String × ℤ) :=
  [("Sevilla", 78), ("AS Roma", 77), ("Lazio", 76), ("Atalanta", 79), ("Villarreal", 77),
   ("Real Betis", 75), ("West Ham United", 74), ("Newcastle United", 78), ("Brighton", 76),
   ("Aston Villa", 75), ("Fiorentina", 74), ("RB Leipzig", 80), ("Bayer Leverkusen", 79),
   ("Eintracht Frankfurt", 75), ("AS Monaco", 77), ("Lille", 74), ("Ajax", 78),
   ("PSV Eindhoven", 76)]

/-- One batch of random draws consumed by a single `generate_advanced_stats`
call.  Each field is one `random.*` call of the source, injected explicitly. -/
structure StatsRand where
  defaultRating : ℤ
  gfJitter : ℚ
  gaJitter : ℚ
  hwJitter : ℤ
  awJitter : ℤ
  csJitter : ℤ
  confJitter : ℤ
  formDraws : List FormR
deriving DecidableEq

/-- Ranges of the `random` calls in `generate_advanced_stats`:
`randint(60, 75)`, `uniform(-0.3, 0.3)`, `uniform(-0.2, 0.2)`,
`randint(-10, 10)` twice, `randint(-15, 15)`, `randint(-5, 5)`, and
`choices(..., k=5)`. -/
def StatsRand.Valid (r : StatsRand) : Prop :=
  60 ≤ r.defaultRating ∧ r.defaultRating ≤ 75 ∧
  -(3/10) ≤ r.gfJitter ∧ r.gfJitter ≤ 3/10 ∧
  -(1/5) ≤ r.gaJitter ∧ r.gaJitter ≤ 1/5 ∧
  -10 ≤ r.hwJitter ∧ r.hwJitter ≤ 10 ∧
  -10 ≤ r.awJitter ∧ r.awJitter ≤ 10 ∧
  -15 ≤ r.csJitter ∧ r.csJitter ≤ 15 ∧
  -5 ≤ r.confJitter ∧ r.confJitter ≤ 5 ∧
  r.formDraws.length = 5

instance (r : StatsRand) : Decidable r.Valid := by
  unfold StatsRand.Valid; infer_instance

/-- Model of `AdvancedAnalyzer.generate_realistic_form` (lines 562-574).  The tier
check selects the weight triple handed to `random.choices`; the drawn
outcomes themselves are the injected `draws`, joined with `'-'`. -/
def generate_realistic_form (rating : ℤ) (draws : List FormR) : String :=
  if 85 ≤ rating then
    -- weights [65, 25, 10]
    String.intercalate "-" (draws.map formChar)
  else if 75 ≤ rating then
    -- weights [45, 35, 20]
    String.intercalate "-" (draws.map formChar)
  else
    -- weights [30, 35, 35]
    String.intercalate "-" (draws.map formChar)

/-- Model of `AdvancedAnalyzer.generate_advanced_stats` (lines 528-560).  The base
rating is `elite_teams.get(t) or good_teams.get(t) or randint(60, 75)`;
every table value is nonzero, so Python's falsy-`or` chain is the
option-fallthrough below. -/
def generate_advanced_stats (team_name : String) (r : StatsRand) : TeamStats :=
  let base_rating : ℤ :=
    match elite_teams.lookup team_name with
    | some v => v
    | none =>
      match good_teams.lookup team_name with
      | some v => v
      | none => r.defaultRating
  let goals_for := pyRound (1 + ((base_rating : ℚ) - 50) * (3/100) + r.gfJitter) 1
  let goals_against := pyRound (2 - ((base_rating : ℚ) - 50) * (2/100) + r.gaJitter) 1
  { recentForm := generate_realistic_form base_rating r.formDraws
    goalsFor := max (1/2) goals_for
    goalsAgainst := max (3/10) goals_against
    homeWinRate := min 90 (max 30 (base_rating - 15 + r.hwJitter))
    awayWinRate := min 80 (max 20 (base_rating - 25 + r.awJitter))
    cleanSheets := min 80 (max 15 (base_rating - 20 + r.csJitter))
    confidence := min 95 (max 55 (base_rating + r.confJitter))
    rating := base_rating }

/-- The process-wide dict `AdvancedAnalyzer.cache`, as an insertion-ordered
association list. -/
abbrev Cache := List (String × TeamStats)

/-- Model of `AdvancedAnalyzer.get_team_stats` (lines 519-526): plain dict lookup,
computing and inserting on a miss.  There is no expiry check and no
capacity check in the source. -/
def get_team_stats (cache : Cache) (team_name : String) (r : StatsRand) :
    TeamStats × Cache :=
  match cache.lookup team_name with
  | some stats => (stats, cache)
  | none =>
    let stats := generate_advanced_stats team_name r
    (stats, cache ++ [(team_name, stats)])

/-- The recommendation record built by
`AdvancedAnalyzer.generate_smart_recommendation` (lines 611-656). -/
structure Recommendation where
  bet : String
  odds : ℚ
  confidence : ℤ
  type : String
  reasoning : String
deriving DecidableEq

/-- Python's `random.uniform(lo, hi)` with the draw `u` injected as a
position in `[0, 1]`. -/
def uniform (lo hi u : ℚ) : ℚ := lo + u * (hi - lo)

/-- Model of `AdvancedAnalyzer.generate_smart_recommendation` (lines 611-656).
`u` is the single `random.uniform` draw of the branch that fires
(injected as a position in `[0, 1]`); `//` is Python floor division,
hence `Int.fdiv`. -/
def generate_smart_recommendation (home_team away_team : String)
    (home_stats away_stats : TeamStats) (strength_diff : ℤ) (u : ℚ) :
    Recommendation :=
  let home_strength := home_stats.confidence + 7
  let away_strength := away_stats.confidence
  if strength_diff > 25 then
    if home_strength > away_strength then
      { bet := home_team ++ " Win"
        odds := pyRound (uniform 1.3 1.8 u) 2
        confidence := min 90 (75 + Int.fdiv strength_diff 3)
        type := "Strong Favorite"
        reasoning := home_team ++ " has significant quality advantage at home" }
    else
      { bet := away_team ++ " Win"
        odds := pyRound (uniform 1.6 2.4 u) 2
        confidence := min 85 (70 + Int.fdiv strength_diff 4)
        type := "Away Value"
        reasoning := away_team ++ " superior quality overcomes home disadvantage" }
  else if strength_diff > 15 then
    { bet := "Double Chance"
      odds := pyRound (uniform 1.7 2.0 u) 2
      confidence := 75
      type := "Safety Bet"
      reasoning := "Moderate difference suggests avoiding outright away win risk" }
  else if |home_stats.goalsFor - away_stats.goalsFor| > 0.7 then
    { bet := "Both Teams to Score"
      odds := pyRound (uniform 1.6 2.0 u) 2
      confidence := 72
      type := "Goals Market"
      reasoning := "Attacking strengths vs defensive weaknesses suggest goals" }
  else
    { bet := "Under 2.5 Goals"
      odds := pyRound (uniform 1.8 2.2 u) 2
      confidence := 68
      type := "Conservative"
      reasoning := "Evenly matched teams often produce cagey, low-scoring affairs" }

/-- The part of the `analyze_match` response the specification's claims
address (`homeStats`, `awayStats`, `recommendation`).  The remaining
`analysis.keyFactors` / `analysis.riskFactors` entries are fixed
explanatory display strings derived from the same stats. -/
structure AnalysisResult where
  homeStats : TeamStats
  awayStats : TeamStats
  recommendation : Recommendation
deriving DecidableEq

/-- The `strength_diff` quantity of `analyze_match` (line 584):
`abs(home_confidence + 7 - away_confidence)` with the +7 home advantage. -/
def strength_diff_of (home_stats away_stats : TeamStats) : ℤ :=
  |home_stats.confidence + 7 - away_stats.confidence|

/-- Model of `AdvancedAnalyzer.analyze_match` (lines 576-609): two cache lookups
(threading the shared cache), home-advantage strength difference, then the
recommendation ladder.  `rh`/`ra` are the stats random draws consumed on a
home/away cache miss; `u` is the odds draw of the recommendation. -/
def analyze_match (cache : Cache) (home_team away_team : String)
    (rh ra : StatsRand) (u : ℚ) : AnalysisResult × Cache :=
  let hres := get_team_stats cache home_team rh
  let ares := get_team_stats hres.2 away_team ra
  let home_stats := hres.1
  let away_stats := ares.1
  let home_strength := home_stats.confidence + 7
  let away_strength := away_stats.confidence
  let strength_diff := |home_strength - away_strength|
  ({ homeStats := home_stats
     awayStats := away_stats
     recommendation := generate_smart_recommendation home_team away_team
       home_stats away_stats strength_diff u }, ares.2)

/-- A canonical fixture record as produced by `EnhancedFootballAPI`
(lines 469-481 and 488-499).  `isInfo` models the extra `'isInfo': True`
key that only the placeholder record carries. -/
structure MatchFixture where
  id : String
  time : String
  homeTeam : String
  awayTeam : String
  league : String
  status : String
  homeOdds : ℚ
  drawOdds : ℚ
  awayOdds : ℚ
  source : String
  isInfo : Bool := false
deriving DecidableEq

/-- The random draws consumed per synthetic fixture in
`get_intelligent_matches`: `randint(0, 45)` minutes of kickoff jitter and
one draw per odds field (`betavariate(2, 5)` or `uniform`, both injected
as a position `t` in `[0, 1]`). -/
structure SynthRand where
  minuteJitter : ℕ
  hDraw : ℚ
  dDraw : ℚ
  aDraw : ℚ
deriving DecidableEq

/-- Ranges of the random draws of one synthetic fixture. -/
def SynthRand.Valid (r : SynthRand) : Prop :=
  r.minuteJitter ≤ 45 ∧
  0 ≤ r.hDraw ∧ r.hDraw ≤ 1 ∧ 0 ≤ r.dDraw ∧ r.dDraw ≤ 1 ∧
  0 ≤ r.aDraw ∧ r.aDraw ≤ 1

instance (r : SynthRand) : Decidable r.Valid := by
  unfold SynthRand.Valid; infer_instance

/-- Model of `EnhancedFootballAPI.generate_realistic_odds` (lines 503-513):
`betavariate(2, 5)` (for `min_odds < 2.0`) and `random.uniform` both land
in `[min_odds, max_odds]`; the injected `t` is the drawn position. -/
def generate_realistic_odds (min_odds max_odds : ℚ) (t : ℚ) : ℚ :=
  if min_odds < 2 then
    pyRound (t * (max_odds - min_odds) + min_odds) 2
  else
    pyRound (uniform min_odds max_odds t) 2

/-- The `'premier-league'` pool of `all_matches` (lines 426-431). -/
def premier_league_pool : List (String × String × String) :=
  [("Arsenal", "Manchester City", "Premier League"),
   ("Liverpool", "Chelsea", "Premier League"),
   ("Manchester United", "Tottenham", "Premier League"),
   ("Newcastle United", "Brighton", "Premier League")]

/-- The `'la-liga'` pool of `all_matches` (lines 432-437). -/
def la_liga_pool : List (String × String × String) :=
  [("Real Madrid", "Barcelona", "La Liga"),
   ("Atletico Madrid", "Sevilla", "La Liga"),
   ("Valencia", "Villarreal", "La Liga"),
   ("Real Betis", "Athletic Bilbao", "La Liga")]

/-- The `'serie-a'` pool of `all_matches` (lines 438-443). -/
def serie_a_pool : List (String × String × String) :=
  [("Inter Milan", "AC Milan", "Serie A"),
   ("Juventus", "Napoli", "Serie A"),
   ("AS Roma", "Lazio", "Serie A"),
   ("Atalanta", "Fiorentina", "Serie A")]

/-- The `'bundesliga'` pool of `all_matches` (lines 444-449). -/
def bundesliga_pool : List (String × String × String) :=
  [("Bayern Munich", "Borussia Dortmund", "Bundesliga"),
   ("RB Leipzig", "Bayer Leverkusen", "Bundesliga"),
   ("Union Berlin", "Eintracht Frankfurt", "Bundesliga"),
   ("SC Freiburg", "VfL Wolfsburg", "Bundesliga")]

/-- The `'champions-league'` pool of `all_matches` (lines 450-455). -/
def champions_league_pool : List (String × String × String) :=
  [("Real Madrid", "Manchester City", "Champions League"),
   ("Barcelona", "Bayern Munich", "Champions League"),
   ("PSG", "Liverpool", "Champions League"),
   ("Inter Milan", "Arsenal", "Champions League")]

/-- The `all_matches` dict of `get_intelligent_matches` (lines 425-456). -/
def all_matches : List (String × List (String × String × String)) :=
  [("premier-league", premier_league_pool), ("la-liga", la_liga_pool),
   ("serie-a", serie_a_pool), ("bundesliga", bundesliga_pool),
   ("champions-league", champions_league_pool)]

/-- Two-digit zero-padded rendering, as in `strftime` fields. -/
def two (n : ℕ) : String := (if n < 10 then "0" else "") ++ toString n

/-- The single INFO placeholder record of `get_intelligent_matches`
(lines 469-481); `dayName`/`monthDay` are the `strftime('%A')` /
`strftime('%B %d')` renderings of today's date.  All three odds fields are
the literal `0`. -/
def info_fixture (dayName monthDay : String) : MatchFixture :=
  { id := "info-no-matches"
    time := "No matches"
    homeTeam := "Today is " ++ dayName
    awayTeam := monthDay
    league := "Major leagues typically play weekends and Wednesday"
    status := "INFO"
    homeOdds := 0
    drawOdds := 0
    awayOdds := 0
    source := "system"
    isInfo := true }

/-- One synthetic sample fixture (loop body of lines 486-499).  Kickoff is
`15:00 + 2 h * index + minuteJitter` rendered `%H:%M` (the `% 24` and
minute carry mirror `strftime` on the shifted `datetime`). -/
def sample_fixture (i : ℕ) (t : String × String × String) (r : SynthRand) :
    MatchFixture :=
  { id := "sample-" ++ toString i
    time := two ((15 + 2 * i + r.minuteJitter / 60) % 24) ++ ":" ++ two (r.minuteJitter % 60)
    homeTeam := t.1
    awayTeam := t.2.1
    league := t.2.2
    status := "SCHEDULED"
    homeOdds := generate_realistic_odds 1.5 3.5 r.hDraw
    drawOdds := generate_realistic_odds 3.0 4.0 r.dDraw
    awayOdds := generate_realistic_odds 2.0 4.5 r.aDraw
    source := "Intelligent Sample" }

/-- The `for i, (home, away, league) in enumerate(selected_teams)` loop of
`get_intelligent_matches` (lines 483-499). -/
def build_matches (rng : ℕ → SynthRand) : ℕ → List (String × String × String) →
    List MatchFixture
  | _, [] => []
  | i, t :: rest => sample_fixture i t (rng i) :: build_matches rng (i + 1) rest

/-- Model of `EnhancedFootballAPI.get_intelligent_matches` (lines 419-501).
`day_of_week` is Python's `weekday()` (Monday = 0 … Sunday = 6); the
filter is `request`-supplied, `none` when absent (`league_filter and …`
also rejects the falsy empty string). -/
def get_intelligent_matches (league_filter : Option String) (day_of_week : ℕ)
    (dayName monthDay : String) (rng : ℕ → SynthRand) : List MatchFixture :=
  let from_filter : Option (List (String × String × String)) :=
    match league_filter with
    | some f => if f = "" then none else all_matches.lookup f
    | none => none
  let selected : Option (List (String × String × String)) :=
    match from_filter with
    | some l => some l
    | none =>
      if day_of_week = 5 ∨ day_of_week = 6 then
        some (premier_league_pool.take 2 ++ la_liga_pool.take 2 ++
              serie_a_pool.take 1 ++ bundesliga_pool.take 1)
      else if day_of_week = 2 then
        all_matches.lookup "champions-league"
      else
        none
  match selected with
  | none => [info_fixture dayName monthDay]
  | some selected_teams => build_matches rng 0 selected_teams

/-- Model of `EnhancedFootballAPI.get_todays_matches` (lines 205-228).  Each source
in the fallback chain is modelled by its observable outcome: `.error e`
for a raised exception (caught by the per-source `try`/`except`) and
`.ok ms` for a normal return; a truthy (non-empty) list is returned
immediately, otherwise the loop continues, and the synthetic generator is
the final fallback. -/
def get_todays_matches (sources : List (Except String (List MatchFixture)))
    (league_filter : Option String) (day_of_week : ℕ)
    (dayName monthDay : String) (rng : ℕ → SynthRand) : List MatchFixture :=
  match sources with
  | [] => get_intelligent_matches league_filter day_of_week dayName monthDay rng
  | s :: rest =>
    match s with
    | .error _ => get_todays_matches rest league_filter day_of_week dayName monthDay rng
    | .ok ms =>
      if ms.isEmpty then
        get_todays_matches rest league_filter day_of_week dayName monthDay rng
      else
        ms

/-- Number of wins in a drawn form sequence (the claims' form tally). -/
def winTally (draws : List FormR) : ℕ := draws.count .W

/-- Decidable check of the odds bound claimed by the specification:
either the record is the INFO placeholder or all three odds are ≥ 1. -/
def odds_ok (m : MatchFixture) : Bool :=
  m.status = "INFO" || (decide ((1 : ℚ) ≤ m.homeOdds) &&
    decide ((1 : ℚ) ≤ m.drawOdds) && decide ((1 : ℚ) ≤ m.awayOdds))

/-- Observable outcome of one provider source that yields nothing usable:
a raised exception or a falsy (empty) list. -/
def source_failed : Except String (List MatchFixture) → Bool
  | .error _ => true
  | .ok ms => ms.isEmpty

/-- Substring order on character lists: does the first list lead the
second (Python's startswith at a position)? -/
def chars_lead : List Char → List Char → Bool
  | [], _ => true
  | _ :: _, [] => false
  | a :: as_, b :: bs => a == b && chars_lead as_ bs

/-- Occurrence of a character-list needle anywhere inside a haystack,
Python's `needle in haystack` on strings. -/
def chars_within (needle : List Char) : List Char → Bool
  | [] => chars_lead needle []
  | b :: bs => chars_lead needle (b :: bs) || chars_within needle bs

/-- Python's substring containment `sub in s`. -/
def str_contains (s sub : String) : Bool := chars_within sub.data s.data

/-- The `filter_map` slug table of `matches_league_filter`
(`src/app.py` lines 402-412). -/
def filter_map : List (String × List String) :=
  [("premier-league", ["premier league", "epl"]),
   ("la-liga", ["la liga", "primera división", "primera division"]),
   ("serie-a", ["serie a", "seria a"]),
   ("bundesliga", ["bundesliga", "1. bundesliga"]),
   ("ligue-1", ["ligue 1", "ligue1"]),
   ("champions-league", ["champions league", "uefa champions league"]),
   ("europa-league", ["europa league", "uefa europa league"]),
   ("eredivisie", ["eredivisie"]),
   ("primeira-liga", ["primeira liga", "liga portugal"])]

/-- Model of `EnhancedFootballAPI.matches_league_filter` (lines 396-417):
case-insensitive slug lookup with keyword containment, falling back to a
raw substring match against the league display name. -/
def matches_league_filter (league_name filter_value : String) : Bool :=
  let league_lower := league_name.toLower
  let filter_lower := filter_value.toLower
  match filter_map.lookup filter_lower with
  | some keywords => keywords.any fun keyword => str_contains league_lower keyword
  | none => str_contains league_lower filter_lower

/-- The `if league_filter and not self.matches_league_filter(...)` skip
condition shared by the provider normalizers (`None` and the empty
string are falsy). -/
def filter_rejects (league_filter : Option String) (league_name : String) : Bool :=
  match league_filter with
  | some f => !(f == "") && !(matches_league_filter league_name f)
  | none => false

/-- The three odds draws consumed per normalized provider fixture, each
injected as a position in [0, 1]. -/
structure OddsDraws where
  hDraw : ℚ
  dDraw : ℚ
  aDraw : ℚ
deriving DecidableEq

/-- Ranges of the three odds draws of one provider fixture. -/
def OddsDraws.Valid (r : OddsDraws) : Prop :=
  0 ≤ r.hDraw ∧ r.hDraw ≤ 1 ∧ 0 ≤ r.dDraw ∧ r.dDraw ≤ 1 ∧ 0 ≤ r.aDraw ∧ r.aDraw ≤ 1

instance (r : OddsDraws) : Decidable r.Valid := by
  unfold OddsDraws.Valid; infer_instance

/-- One parsed Football-Data.org payload record, carrying exactly the
fields `process_football_data_matches` reads; `utcTime` is the
`strftime('%H:%M')` rendering of the parsed `utcDate` (no claim depends
on the date arithmetic itself). -/
structure FDRawMatch where
  id : String
  utcTime : String
  homeTeam : String
  awayTeam : String
  league : String
  status : String
deriving DecidableEq

/-- Loop body of `process_football_data_matches` (lines 297-322): keep
only upcoming/live statuses, apply the league filter, synthesize odds
above 1.4/2.8/1.8.  `k` indexes the odds draws consumed so far. -/
def process_football_data_go (league_filter : Option String) (rng : ℕ → OddsDraws) :
    ℕ → List FDRawMatch → List MatchFixture
  | _, [] => []
  | k, m :: rest =>
    if m.status ∈ (["SCHEDULED", "TIMED", "IN_PLAY", "LIVE"] : List String) then
      if filter_rejects league_filter m.league then
        process_football_data_go league_filter rng k rest
      else
        { id := "fd_" ++ m.id
          time := m.utcTime
          homeTeam := m.homeTeam
          awayTeam := m.awayTeam
          league := m.league
          status := m.status
          homeOdds := generate_realistic_odds 1.4 4.0 (rng k).hDraw
          drawOdds := generate_realistic_odds 2.8 4.2 (rng k).dDraw
          awayOdds := generate_realistic_odds 1.8 5.5 (rng k).aDraw
          source := "Football-Data.org" } ::
          process_football_data_go league_filter rng (k + 1) rest
    else
      process_football_data_go league_filter rng k rest

/-- Model of `EnhancedFootballAPI.process_football_data_matches`
(lines 297-322), over the first 15 payload records. -/
def process_football_data_matches (raw : List FDRawMatch)
    (league_filter : Option String) (rng : ℕ → OddsDraws) : List MatchFixture :=
  process_football_data_go league_filter rng 0 (raw.take 15)

/-- One parsed RapidAPI payload fixture, carrying exactly the fields
`process_rapidapi_matches` reads; `time` is the `strftime('%H:%M')`
rendering of the parsed fixture date. -/
structure RARawFixture where
  id : String
  time : String
  homeTeam : String
  awayTeam : String
  league : String
  statusShort : String
deriving DecidableEq

/-- Loop body of `process_rapidapi_matches` (lines 324-348): no status
filtering, league filter, odds above 1.4/2.8/1.8. -/
def process_rapidapi_go (league_filter : Option String) (rng : ℕ → OddsDraws) :
    ℕ → List RARawFixture → List MatchFixture
  | _, [] => []
  | k, m :: rest =>
    if filter_rejects league_filter m.league then
      process_rapidapi_go league_filter rng k rest
    else
      { id := "ra_" ++ m.id
        time := m.time
        homeTeam := m.homeTeam
        awayTeam := m.awayTeam
        league := m.league
        status := m.statusShort
        homeOdds := generate_realistic_odds 1.4 4.0 (rng k).hDraw
        drawOdds := generate_realistic_odds 2.8 4.2 (rng k).dDraw
        awayOdds := generate_realistic_odds 1.8 5.5 (rng k).aDraw
        source := "RapidAPI Football" } ::
        process_rapidapi_go league_filter rng (k + 1) rest

/-- Model of `EnhancedFootballAPI.process_rapidapi_matches`
(lines 324-348), over the first 15 payload fixtures. -/
def process_rapidapi_matches (raw : List RARawFixture)
    (league_filter : Option String) (rng : ℕ → OddsDraws) : List MatchFixture :=
  process_rapidapi_go league_filter rng 0 (raw.take 15)

/-- One parsed Sportmonks payload fixture; `hasLeague` models the
`'league' in fixture` key check, `time` the `strftime('%H:%M')`
rendering of the parsed starting time. -/
structure SMRawFixture where
  hasLeague : Bool
  id : String
  time : String
  homeTeam : String
  awayTeam : String
  league : String
  status : String
deriving DecidableEq

/-- Loop body of `process_sportmonks_matches` (lines 350-374): skip
records without a league key, league filter, odds above 1.4/2.8/1.8. -/
def process_sportmonks_go (league_filter : Option String) (rng : ℕ → OddsDraws) :
    ℕ → List SMRawFixture → List MatchFixture
  | _, [] => []
  | k, m :: rest =>
    if m.hasLeague then
      if filter_rejects league_filter m.league then
        process_sportmonks_go league_filter rng k rest
      else
        { id := "sm_" ++ m.id
          time := m.time
          homeTeam := m.homeTeam
          awayTeam := m.awayTeam
          league := m.league
          status := m.status
          homeOdds := generate_realistic_odds 1.4 4.0 (rng k).hDraw
          drawOdds := generate_realistic_odds 2.8 4.2 (rng k).dDraw
          awayOdds := generate_realistic_odds 1.8 5.5 (rng k).aDraw
          source := "Sportmonks" } ::
          process_sportmonks_go league_filter rng (k + 1) rest
    else
      process_sportmonks_go league_filter rng k rest

/-- Model of `EnhancedFootballAPI.process_sportmonks_matches`
(lines 350-374), over the first 15 payload fixtures. -/
def process_sportmonks_matches (raw : List SMRawFixture)
    (league_filter : Option String) (rng : ℕ → OddsDraws) : List MatchFixture :=
  process_sportmonks_go league_filter rng 0 (raw.take 15)

/-- One parsed OpenLigaDB payload record; `time` is the
`strftime('%H:%M')` rendering of `matchDateTime`. -/
structure OLRawMatch where
  matchID : String
  time : String
  team1 : String
  team2 : String
deriving DecidableEq

/-- Loop body of `process_openliga_matches` (lines 376-394): no status
or league filtering, fixed league and status, odds above 1.4/2.8/1.8. -/
def process_openliga_go (rng : ℕ → OddsDraws) :
    ℕ → List OLRawMatch → List MatchFixture
  | _, [] => []
  | k, m :: rest =>
    { id := "ol_" ++ m.matchID
      time := m.time
      homeTeam := m.team1
      awayTeam := m.team2
      league := "Bundesliga"
      status := "SCHEDULED"
      homeOdds := generate_realistic_odds 1.4 4.0 (rng k).hDraw
      drawOdds := generate_realistic_odds 2.8 4.2 (rng k).dDraw
      awayOdds := generate_realistic_odds 1.8 5.5 (rng k).aDraw
      source := "OpenLigaDB" } ::
      process_openliga_go rng (k + 1) rest

/-- Model of `EnhancedFootballAPI.process_openliga_matches`
(lines 376-394), over the first 10 payload records. -/
def process_openliga_matches (raw : List OLRawMatch)
    (rng : ℕ → OddsDraws) : List MatchFixture :=
  process_openliga_go rng 0 (raw.take 10)

/-- A source outcome reachable in `get_todays_matches`: the adapter
raised (caught by the per-source `try`/`except`), or returned the falsy
empty list (unconfigured / no data), or returned the output of one of
the four provider normalizers on some parsed payload with in-range odds
draws. -/
def reachable_source (s : Except String (List MatchFixture)) : Prop :=
  (∃ e, s = Except.error e) ∨
  s = Except.ok [] ∨
  (∃ raw league_filter rng, (∀ i, OddsDraws.Valid (rng i)) ∧
    s = Except.ok (process_football_data_matches raw league_filter rng)) ∨
  (∃ raw league_filter rng, (∀ i, OddsDraws.Valid (rng i)) ∧
    s = Except.ok (process_rapidapi_matches raw league_filter rng)) ∨
  (∃ raw league_filter rng, (∀ i, OddsDraws.Valid (rng i)) ∧
    s = Except.ok (process_sportmonks_matches raw league_filter rng)) ∨
  (∃ raw rng, (∀ i, OddsDraws.Valid (rng i)) ∧
    s = Except.ok (process_openliga_matches raw rng))

/-- The all-zero provider odds draw, valid for every field. -/
def zero_odds_draws : OddsDraws := ⟨0, 0, 0⟩

/-- A concrete parsed Football-Data payload record used in witnesses. -/
def fd_raw_example : FDRawMatch :=
  ⟨"12345", "15:00", "Arsenal", "Chelsea", "Premier League", "SCHEDULED"⟩

/-- A fixed valid batch of stats draws used for concrete evaluations. -/
def randA : StatsRand := ⟨60, 0, 0, 0, 0, 0, 0, [.W, .W, .D, .L, .L]⟩

/-- A second valid batch of stats draws, chosen so that recomputing a
team's stats with it yields a different record than `randA` does. -/
def randB : StatsRand := ⟨75, 0, 0, 0, 0, 0, 5, [.L, .L, .L, .L, .L]⟩

/-- Team names `T0`, …, `T(n-1)` used to fill the cache. -/
def team_names (n : ℕ) : List String := (List.range n).map fun i => "T" ++ toString i

/-- Repeated `get_team_stats` calls, threading the cache, all with the
same injected draws. -/
def fill_cache (names : List String) (r : StatsRand) (cache : Cache) : Cache :=
  match names with
  | [] => cache
  | t :: rest => fill_cache rest r (get_team_stats cache t r).2

/-- Real Madrid's draws in the C1 counterexample: confidence jitter at
its lowest value -5. -/
def randC1h : StatsRand := ⟨60, 0, 0, 0, 0, 0, -5, [.W, .W, .D, .L, .L]⟩

/-- The unrated opponent's draws in the C1 counterexample: default rating
75 with confidence jitter +5. -/
def randC1a : StatsRand := ⟨75, 0, 0, 0, 0, 0, 5, [.W, .W, .D, .L, .L]⟩

/-- Draws whose injected recent form is five wins. -/
def randFormW : StatsRand := ⟨60, 0, 0, 0, 0, 0, 0, [.W, .W, .W, .W, .W]⟩

/-- Draws whose injected recent form is five losses. -/
def randFormL : StatsRand := ⟨60, 0, 0, 0, 0, 0, 0, [.L, .L, .L, .L, .L]⟩

/-- Real Madrid's draws in the C5 counterexample (confidence jitter -5,
goals-for jitter +0.29, goals-against jitter -0.1). -/
def randC5h : StatsRand := ⟨60, 29/100, -(1/10), 0, 0, 0, -5, [.W, .D, .L, .W, .D]⟩

/-- AC Milan's draws in the C5 counterexample (confidence jitter +5,
goals-for jitter -0.3, goals-against jitter -0.2). -/
def randC5a : StatsRand := ⟨60, -(3/10), -(1/5), 0, 0, 0, 5, [.W, .D, .L, .W, .D]⟩

/-- A concrete stats record used to witness branch theorems. -/
def statsHigh : TeamStats := ⟨"W-W-W-W-W", 2, 1, 50, 40, 30, 80, 80⟩

/-- A second concrete stats record used to witness branch theorems. -/
def statsLow : TeamStats := ⟨"L-L-L-L-L", 1, 2, 50, 40, 30, 80, 70⟩

theorem le_rte {m : ℤ} {q : ℚ} (h : (m : ℚ) ≤ q) : m ≤ rte q := by
  have hf : m ≤ ⌊q⌋ := Int.le_floor.mpr h
  unfold rte
  dsimp only
  split
  · exact hf
  · split
    · omega
    · split <;> omega

theorem rte_le {m : ℤ} {q : ℚ} (h : q ≤ (m : ℚ)) : rte q ≤ m := by
  have hfl : (⌊q⌋ : ℚ) ≤ q := Int.floor_le q
  have hf : ⌊q⌋ ≤ m := by exact_mod_cast hfl.trans h
  unfold rte
  dsimp only
  split
  · exact hf
  · rename_i hge
    push_neg at hge
    have hlt : (⌊q⌋ : ℚ) < q := by linarith
    have hm : ⌊q⌋ < m := by exact_mod_cast hlt.trans_le h
    split
    · omega
    · split <;> omega

theorem le_pyRound {a : ℤ} {q : ℚ} {d : ℕ} (h : (a : ℚ) / 10 ^ d ≤ q) :
    (a : ℚ) / 10 ^ d ≤ pyRound q d := by
  have hp : (0 : ℚ) < 10 ^ d := by positivity
  have h' : (a : ℚ) ≤ q * 10 ^ d := by
    rw [div_le_iff₀ hp] at h; exact h
  have := le_rte h'
  unfold pyRound
  rw [div_le_div_iff_of_pos_right hp]
  exact_mod_cast this

theorem pyRound_le {b : ℤ} {q : ℚ} {d : ℕ} (h : q ≤ (b : ℚ) / 10 ^ d) :
    pyRound q d ≤ (b : ℚ) / 10 ^ d := by
  have hp : (0 : ℚ) < 10 ^ d := by positivity
  have h' : q * 10 ^ d ≤ (b : ℚ) := by
    rw [le_div_iff₀ hp] at h; exact h
  have := rte_le h'
  unfold pyRound
  rw [div_le_div_iff_of_pos_right hp]
  exact_mod_cast this

/-- Claim C8: for every team name and every outcome of the random source,
the percentage-valued fields of the generated team stats lie within
[0,100] and within their tighter per-field clamps (confidence in [55,95],
homeWinRate in [30,90], awayWinRate in [20,80], cleanSheets in [15,80]),
and goalsFor ≥ 0.5 and goalsAgainst ≥ 0.3. -/
theorem C8_stats_bounds (team_name : String) (r : StatsRand) :
    55 ≤ (generate_advanced_stats team_name r).confidence ∧
    (generate_advanced_stats team_name r).confidence ≤ 95 ∧
    30 ≤ (generate_advanced_stats team_name r).homeWinRate ∧
    (generate_advanced_stats team_name r).homeWinRate ≤ 90 ∧
    20 ≤ (generate_advanced_stats team_name r).awayWinRate ∧
    (generate_advanced_stats team_name r).awayWinRate ≤ 80 ∧
    15 ≤ (generate_advanced_stats team_name r).cleanSheets ∧
    (generate_advanced_stats team_name r).cleanSheets ≤ 80 ∧
    0 ≤ (generate_advanced_stats team_name r).confidence ∧
    (generate_advanced_stats team_name r).confidence ≤ 100 ∧
    0 ≤ (generate_advanced_stats team_name r).homeWinRate ∧
    (generate_advanced_stats team_name r).homeWinRate ≤ 100 ∧
    0 ≤ (generate_advanced_stats team_name r).awayWinRate ∧
    (generate_advanced_stats team_name r).awayWinRate ≤ 100 ∧
    0 ≤ (generate_advanced_stats team_name r).cleanSheets ∧
    (generate_advanced_stats team_name r).cleanSheets ≤ 100 ∧
    1/2 ≤ (generate_advanced_stats team_name r).goalsFor ∧
    3/10 ≤ (generate_advanced_stats team_name r).goalsAgainst := by
  simp only [generate_advanced_stats]
  refine ⟨?_, ?_, ?_, ?_, ?_, ?_, ?_, ?_, ?_, ?_, ?_, ?_, ?_, ?_, ?_, ?_, ?_, ?_⟩ <;>
    first
      | omega
      | exact le_max_left _ _

/-- Counterexample to claim C2: after 50 distinct teams have been cached,
a call for a fresh 51st team leaves 51 entries in the cache, not 1 — the
code has no capacity bound and never clears the cache. -/
theorem C2_counterexample :
    (fill_cache (team_names 50) randA []).length = 50 ∧
    ((get_team_stats (fill_cache (team_names 50) randA []) "T50" randA).2).length = 51 := by
  decide

/-- Claim C2 as amended: `get_team_stats` has no capacity policy at all;
a call for a team that is not cached (in particular the 51st distinct
team) simply appends, growing the cache from `n` to `n + 1` entries. -/
theorem C2_no_flush (cache : Cache) (team_name : String) (r : StatsRand)
    (h : cache.lookup team_name = none) :
    ((get_team_stats cache team_name r).2).length = cache.length + 1 := by
  simp [get_team_stats, h]

/-- Witness for `C2_no_flush` at a 50-entry cache and a fresh team. -/
theorem C2_no_flush_witness :
    ((get_team_stats (fill_cache (team_names 50) randA []) "T50" randA).2).length
      = (fill_cache (team_names 50) randA []).length + 1 :=
  C2_no_flush (fill_cache (team_names 50) randA []) "T50" randA (by decide)

/-- Counterexample to claim C3: the cached entry has no expiry.  However
much later a second call happens (modelled by handing the second call a
fresh random batch that would produce a different record), `get_team_stats`
returns the originally cached stats and never recomputes; there is no
`expiresAt`/`computedAt` bookkeeping in the record at all. -/
theorem C3_counterexample :
    ((get_team_stats ((get_team_stats [] "Team X" randA).2) "Team X" randB).1).confidence
        = ((get_team_stats [] "Team X" randA).1).confidence ∧
    ((get_team_stats ((get_team_stats [] "Team X" randA).2) "Team X" randB).1).recentForm
        = ((get_team_stats [] "Team X" randA).1).recentForm ∧
    (generate_advanced_stats "Team X" randB).confidence
        ≠ ((get_team_stats [] "Team X" randA).1).confidence := by
  decide

/-- Claim C3 as amended: on a hit `get_team_stats` returns the cached
record unchanged and leaves the cache untouched, for every outcome of the
random source — and this holds for every later call as well, because the
code has no TTL: a cached entry is never recomputed. -/
theorem C3_hit_stable (cache : Cache) (team_name : String) (s : TeamStats)
    (r : StatsRand) (h : cache.lookup team_name = some s) :
    get_team_stats cache team_name r = (s, cache) := by
  simp [get_team_stats, h]

/-- Witness for `C3_hit_stable`: a second lookup of a cached team, handed
fresh draws, still returns the first call's record. -/
theorem C3_hit_stable_witness :
    get_team_stats [("Ajax", generate_advanced_stats "Ajax" randA)] "Ajax" randB
      = (generate_advanced_stats "Ajax" randA,
         [("Ajax", generate_advanced_stats "Ajax" randA)]) :=
  C3_hit_stable _ "Ajax" _ randB (by simp [List.lookup])

theorem analyze_RM_TX_home (rh ra : StatsRand) (u : ℚ) :
    ((analyze_match [] "Real Madrid" "Team X" rh ra u).1).homeStats
      = generate_advanced_stats "Real Madrid" rh := rfl

theorem analyze_RM_TX_away (rh ra : StatsRand) (u : ℚ) :
    ((analyze_match [] "Real Madrid" "Team X" rh ra u).1).awayStats
      = generate_advanced_stats "Team X" ra := rfl

theorem analyze_RM_TX_rec (rh ra : StatsRand) (u : ℚ) :
    ((analyze_match [] "Real Madrid" "Team X" rh ra u).1).recommendation
      = generate_smart_recommendation "Real Madrid" "Team X"
          (generate_advanced_stats "Real Madrid" rh) (generate_advanced_stats "Team X" ra)
          (|(generate_advanced_stats "Real Madrid" rh).confidence + 7
            - (generate_advanced_stats "Team X" ra).confidence|) u := rfl

theorem conf_RM (r : StatsRand) : (generate_advanced_stats "Real Madrid" r).confidence
    = min 95 (max 55 (95 + r.confJitter)) := rfl

theorem conf_TX (r : StatsRand) : (generate_advanced_stats "Team X" r).confidence
    = min 95 (max 55 (r.defaultRating + r.confJitter)) := rfl

theorem randA_valid : randA.Valid := by
  unfold StatsRand.Valid randA; norm_num

theorem randC1h_valid : randC1h.Valid := by
  unfold StatsRand.Valid randC1h; norm_num

theorem randC1a_valid : randC1a.Valid := by
  unfold StatsRand.Valid randC1a; norm_num

/-- Counterexample to claim C1: with Real Madrid's confidence jitter at
its lowest draw (-5) and an unrated opponent at rating 75 with jitter +5
— all inside the documented ranges — the strength difference is 17, which
is not greater than 25, and the returned bet is "Double Chance", not a
"Real Madrid Win" Strong Favorite. -/
theorem C1_counterexample :
    randC1h.Valid ∧ randC1a.Valid ∧
    (strength_diff_of
        ((analyze_match [] "Real Madrid" "Team X" randC1h randC1a 0).1).homeStats
        ((analyze_match [] "Real Madrid" "Team X" randC1h randC1a 0).1).awayStats = 17) ∧
    ((analyze_match [] "Real Madrid" "Team X" randC1h randC1a 0).1).recommendation.bet
      = "Double Chance" ∧
    ((analyze_match [] "Real Madrid" "Team X" randC1h randC1a 0).1).recommendation.type
      ≠ "Strong Favorite" :=
  ⟨randC1h_valid, randC1a_valid, by decide, by decide, by decide⟩

/-- Claim C1 as amended: for `analyze("Real Madrid", "Team X")` on a
fresh cache the strength difference always lies in [17, 47] — it is not
always above 25 — and whenever it does exceed 25 the recommendation is a
"Real Madrid Win" bet with type "Strong Favorite". -/
theorem C1_strong_favorite (rh ra : StatsRand) (u : ℚ)
    (hh : rh.Valid) (ha : ra.Valid) :
    17 ≤ strength_diff_of
        ((analyze_match [] "Real Madrid" "Team X" rh ra u).1).homeStats
        ((analyze_match [] "Real Madrid" "Team X" rh ra u).1).awayStats ∧
    strength_diff_of
        ((analyze_match [] "Real Madrid" "Team X" rh ra u).1).homeStats
        ((analyze_match [] "Real Madrid" "Team X" rh ra u).1).awayStats ≤ 47 ∧
    (25 < strength_diff_of
        ((analyze_match [] "Real Madrid" "Team X" rh ra u).1).homeStats
        ((analyze_match [] "Real Madrid" "Team X" rh ra u).1).awayStats →
      ((analyze_match [] "Real Madrid" "Team X" rh ra u).1).recommendation.bet
          = "Real Madrid Win" ∧
      ((analyze_match [] "Real Madrid" "Team X" rh ra u).1).recommendation.type
          = "Strong Favorite") := by
  obtain ⟨hd1, hd2, _, _, _, _, _, _, _, _, _, _, hc1, hc2, _⟩ := ha
  obtain ⟨_, _, _, _, _, _, _, _, _, _, _, _, hc3, hc4, _⟩ := hh
  rw [analyze_RM_TX_home, analyze_RM_TX_away, analyze_RM_TX_rec]
  unfold strength_diff_of
  rw [conf_RM, conf_TX]
  have habs : (0 : ℤ) ≤ min 95 (max 55 (95 + rh.confJitter)) + 7
      - min 95 (max 55 (ra.defaultRating + ra.confJitter)) := by omega
  rw [abs_of_nonneg habs]
  have ek := conf_RM rh
  have ea := conf_TX ra
  refine ⟨by omega, by omega, fun h25 => ?_⟩
  unfold generate_smart_recommendation
  dsimp only
  split
  · split
    · exact ⟨rfl, rfl⟩
    · exfalso; omega
  · exfalso; omega

/-- Witness for `C1_strong_favorite` at concrete valid draws. -/
theorem C1_strong_favorite_witness :
    17 ≤ strength_diff_of
        ((analyze_match [] "Real Madrid" "Team X" randA randA 0).1).homeStats
        ((analyze_match [] "Real Madrid" "Team X" randA randA 0).1).awayStats ∧
    strength_diff_of
        ((analyze_match [] "Real Madrid" "Team X" randA randA 0).1).homeStats
        ((analyze_match [] "Real Madrid" "Team X" randA randA 0).1).awayStats ≤ 47 ∧
    (25 < strength_diff_of
        ((analyze_match [] "Real Madrid" "Team X" randA randA 0).1).homeStats
        ((analyze_match [] "Real Madrid" "Team X" randA randA 0).1).awayStats →
      ((analyze_match [] "Real Madrid" "Team X" randA randA 0).1).recommendation.bet
          = "Real Madrid Win" ∧
      ((analyze_match [] "Real Madrid" "Team X" randA randA 0).1).recommendation.type
          = "Strong Favorite") :=
  C1_strong_favorite randA randA 0 randA_valid randA_valid

theorem randFormW_valid : randFormW.Valid := by
  unfold StatsRand.Valid randFormW; norm_num

theorem randFormL_valid : randFormL.Valid := by
  unfold StatsRand.Valid randFormL; norm_num

theorem goalsFor_arsenal :
    (generate_advanced_stats "Arsenal" randFormW).goalsFor = 21/10 := by
  have hl : elite_teams.lookup "Arsenal" = some 88 := by simp [elite_teams, List.lookup]
  simp only [generate_advanced_stats, hl, randFormW]
  norm_num [pyRound, rte, Int.floor_eq_iff]

theorem goalsFor_chelsea :
    (generate_advanced_stats "Chelsea" randFormL).goalsFor = 21/10 := by
  have hl : elite_teams.lookup "Chelsea" = some 87 := by simp [elite_teams, List.lookup]
  simp only [generate_advanced_stats, hl, randFormL]
  norm_num [pyRound, rte, Int.floor_eq_iff]

/-- Counterexample to claim C4: Arsenal with a drawn form of five wins
against Chelsea with a drawn form of five losses (strength difference 8,
well under 25) does not get a form bet — the ladder has no form branch,
and the result here is the conservative "Under 2.5 Goals" default. -/
theorem C4_counterexample :
    randFormW.Valid ∧ randFormL.Valid ∧
    winTally randFormW.formDraws = 5 ∧ winTally randFormL.formDraws = 0 ∧
    ((analyze_match [] "Arsenal" "Chelsea" randFormW randFormL 0).1).homeStats.recentForm
      = "W-W-W-W-W" ∧
    ((analyze_match [] "Arsenal" "Chelsea" randFormW randFormL 0).1).awayStats.recentForm
      = "L-L-L-L-L" ∧
    strength_diff_of
      ((analyze_match [] "Arsenal" "Chelsea" randFormW randFormL 0).1).homeStats
      ((analyze_match [] "Arsenal" "Chelsea" randFormW randFormL 0).1).awayStats ≤ 25 ∧
    ((analyze_match [] "Arsenal" "Chelsea" randFormW randFormL 0).1).recommendation.bet
      = "Under 2.5 Goals" ∧
    ((analyze_match [] "Arsenal" "Chelsea" randFormW randFormL 0).1).recommendation.type
      = "Conservative" := by
  have e : ((analyze_match [] "Arsenal" "Chelsea" randFormW randFormL 0).1).recommendation
      = generate_smart_recommendation "Arsenal" "Chelsea"
          (generate_advanced_stats "Arsenal" randFormW)
          (generate_advanced_stats "Chelsea" randFormL)
          (|(generate_advanced_stats "Arsenal" randFormW).confidence + 7
            - (generate_advanced_stats "Chelsea" randFormL).confidence|) 0 := rfl
  have hsd : |(generate_advanced_stats "Arsenal" randFormW).confidence + 7
      - (generate_advanced_stats "Chelsea" randFormL).confidence| = 8 := by decide
  refine ⟨randFormW_valid, randFormL_valid, by decide, by decide, by decide, by decide,
    by decide, ?_, ?_⟩ <;>
  · rw [e, hsd]
    unfold generate_smart_recommendation
    dsimp only
    rw [goalsFor_arsenal, goalsFor_chelsea]
    norm_num

/-- Claim C4 as amended: the decision ladder never consults recent form.
Replacing both teams' `recentForm` by arbitrary strings leaves the
recommendation unchanged — there is no form-bet branch; below a strength
difference of 25 the ladder proceeds directly to the Double-Chance check,
the goals-market check and the conservative default. -/
theorem C4_form_never_consulted (home_team away_team f g : String)
    (home_stats away_stats : TeamStats) (strength_diff : ℤ) (u : ℚ) :
    generate_smart_recommendation home_team away_team
        { home_stats with recentForm := f } { away_stats with recentForm := g }
        strength_diff u
      = generate_smart_recommendation home_team away_team home_stats away_stats
          strength_diff u := rfl

theorem randC5h_valid : randC5h.Valid := by
  unfold StatsRand.Valid randC5h; norm_num

theorem randC5a_valid : randC5a.Valid := by
  unfold StatsRand.Valid randC5a; norm_num

theorem goalsFor_rm_C5 :
    (generate_advanced_stats "Real Madrid" randC5h).goalsFor = 13/5 := by
  have hl : elite_teams.lookup "Real Madrid" = some 95 := by simp [elite_teams, List.lookup]
  simp only [generate_advanced_stats, hl, randC5h]
  norm_num [pyRound, rte, Int.floor_eq_iff]

theorem goalsFor_milan_C5 :
    (generate_advanced_stats "AC Milan" randC5a).goalsFor = 17/10 := by
  have hl : elite_teams.lookup "AC Milan" = some 84 := by simp [elite_teams, List.lookup]
  simp only [generate_advanced_stats, hl, randC5a]
  norm_num [pyRound, rte, Int.floor_eq_iff]

theorem goalsAgainst_rm_C5 :
    (generate_advanced_stats "Real Madrid" randC5h).goalsAgainst = 1 := by
  have hl : elite_teams.lookup "Real Madrid" = some 95 := by simp [elite_teams, List.lookup]
  simp only [generate_advanced_stats, hl, randC5h]
  norm_num [pyRound, rte, Int.floor_eq_iff]

theorem goalsAgainst_milan_C5 :
    (generate_advanced_stats "AC Milan" randC5a).goalsAgainst = 11/10 := by
  have hl : elite_teams.lookup "AC Milan" = some 84 := by simp [elite_teams, List.lookup]
  simp only [generate_advanced_stats, hl, randC5a]
  norm_num [pyRound, rte, Int.floor_eq_iff]

/-- Counterexample to claim C5: Real Madrid vs AC Milan with draws that
put the strength difference at 8, the goals-for differential at 0.9 and
both teams' goalsAgainst at or below 1.2 (1.0 and 1.1).  The claim says
this yields "Over 2.5 Goals"; the code returns "Both Teams to Score"
unconditionally in the goals-market branch. -/
theorem C5_counterexample :
    randC5h.Valid ∧ randC5a.Valid ∧
    strength_diff_of
      ((analyze_match [] "Real Madrid" "AC Milan" randC5h randC5a 0).1).homeStats
      ((analyze_match [] "Real Madrid" "AC Milan" randC5h randC5a 0).1).awayStats ≤ 15 ∧
    |((analyze_match [] "Real Madrid" "AC Milan" randC5h randC5a 0).1).homeStats.goalsFor
      - ((analyze_match [] "Real Madrid" "AC Milan" randC5h randC5a 0).1).awayStats.goalsFor|
      > 7/10 ∧
    ((analyze_match [] "Real Madrid" "AC Milan" randC5h randC5a 0).1).homeStats.goalsAgainst
      ≤ 6/5 ∧
    ((analyze_match [] "Real Madrid" "AC Milan" randC5h randC5a 0).1).awayStats.goalsAgainst
      ≤ 6/5 ∧
    ((analyze_match [] "Real Madrid" "AC Milan" randC5h randC5a 0).1).recommendation.bet
      = "Both Teams to Score" ∧
    ((analyze_match [] "Real Madrid" "AC Milan" randC5h randC5a 0).1).recommendation.bet
      ≠ "Over 2.5 Goals" := by
  have e : ((analyze_match [] "Real Madrid" "AC Milan" randC5h randC5a 0).1).recommendation
      = generate_smart_recommendation "Real Madrid" "AC Milan"
          (generate_advanced_stats "Real Madrid" randC5h)
          (generate_advanced_stats "AC Milan" randC5a)
          (|(generate_advanced_stats "Real Madrid" randC5h).confidence + 7
            - (generate_advanced_stats "AC Milan" randC5a).confidence|) 0 := rfl
  have hsd : |(generate_advanced_stats "Real Madrid" randC5h).confidence + 7
      - (generate_advanced_stats "AC Milan" randC5a).confidence| = 8 := by decide
  have eh : ((analyze_match [] "Real Madrid" "AC Milan" randC5h randC5a 0).1).homeStats
      = generate_advanced_stats "Real Madrid" randC5h := rfl
  have ea : ((analyze_match [] "Real Madrid" "AC Milan" randC5h randC5a 0).1).awayStats
      = generate_advanced_stats "AC Milan" randC5a := rfl
  have habs : |(13 : ℚ)/5 - 17/10| = 9/10 := by
    rw [show (13 : ℚ)/5 - 17/10 = 9/10 by norm_num]
    exact abs_of_nonneg (by norm_num)
  refine ⟨randC5h_valid, randC5a_valid, by decide, ?_, ?_, ?_, ?_, ?_⟩
  · rw [eh, ea, goalsFor_rm_C5, goalsFor_milan_C5, habs]; norm_num
  · rw [eh, goalsAgainst_rm_C5]; norm_num
  · rw [ea, goalsAgainst_milan_C5]; norm_num
  · rw [e, hsd]
    unfold generate_smart_recommendation
    dsimp only
    rw [goalsFor_rm_C5, goalsFor_milan_C5, habs]
    norm_num
  · rw [e, hsd]
    unfold generate_smart_recommendation
    dsimp only
    rw [goalsFor_rm_C5, goalsFor_milan_C5, habs]
    norm_num
    decide

/-- Claim C5 as amended: in the goals-market branch (no earlier branch
matched, goals-for differential above 0.7) the code always returns
"Both Teams to Score" with confidence 72 and type "Goals Market" — it
never inspects goalsAgainst and never returns "Over 2.5 Goals". -/
theorem C5_goals_branch (home_team away_team : String)
    (home_stats away_stats : TeamStats) (strength_diff : ℤ) (u : ℚ)
    (h1 : ¬ strength_diff > 25) (h2 : ¬ strength_diff > 15)
    (h3 : |home_stats.goalsFor - away_stats.goalsFor| > 0.7) :
    (generate_smart_recommendation home_team away_team home_stats away_stats
        strength_diff u).bet = "Both Teams to Score" ∧
    (generate_smart_recommendation home_team away_team home_stats away_stats
        strength_diff u).type = "Goals Market" ∧
    (generate_smart_recommendation home_team away_team home_stats away_stats
        strength_diff u).confidence = 72 := by
  unfold generate_smart_recommendation
  dsimp only
  rw [if_neg h1, if_neg h2, if_pos h3]
  exact ⟨rfl, rfl, rfl⟩

/-- Witness for `C5_goals_branch` at concrete inputs. -/
theorem C5_goals_branch_witness :
    (generate_smart_recommendation "Valencia" "Girona" statsHigh statsLow 8 0).bet
      = "Both Teams to Score" ∧
    (generate_smart_recommendation "Valencia" "Girona" statsHigh statsLow 8 0).type
      = "Goals Market" ∧
    (generate_smart_recommendation "Valencia" "Girona" statsHigh statsLow 8 0).confidence
      = 72 :=
  C5_goals_branch "Valencia" "Girona" statsHigh statsLow 8 0 (by decide) (by decide)
    (by norm_num [statsHigh, statsLow])

/-- Counterexample to claim C9: the reasoning text returned by the
analyzer is non-empty but does not end with a period — here the
strong-favorite template, whose last character is the letter 'e'. -/
theorem C9_counterexample :
    ((analyze_match [] "Real Madrid" "Team X" randA randA 0).1).recommendation.reasoning
      ≠ "" ∧
    ((analyze_match [] "Real Madrid" "Team X"
        randA randA 0).1).recommendation.reasoning.data.getLast? ≠ some '.' := by
  decide

/-- Claim C9 as amended: the reasoning text is non-empty for every
(home, away) pair and every outcome, but its last character is never a
period — each of the five templates ends in a letter. -/
theorem C9_reasoning_nonempty (home_team away_team : String)
    (home_stats away_stats : TeamStats) (strength_diff : ℤ) (u : ℚ) :
    0 < (generate_smart_recommendation home_team away_team home_stats away_stats
        strength_diff u).reasoning.length ∧
    (generate_smart_recommendation home_team away_team home_stats away_stats
        strength_diff u).reasoning.data.getLast? ≠ some '.' := by
  unfold generate_smart_recommendation
  dsimp only
  split
  · split
    · constructor
      · rw [String.length_append]
        have h : 0 < (" has significant quality advantage at home" : String).length := by
          decide
        omega
      · rw [String.data_append, List.getLast?_append_of_ne_nil _ (by decide)]
        decide
    · constructor
      · rw [String.length_append]
        have h : 0 < (" superior quality overcomes home disadvantage" : String).length := by
          decide
        omega
      · rw [String.data_append, List.getLast?_append_of_ne_nil _ (by decide)]
        decide
  · split
    · refine ⟨?_, ?_⟩ <;> · dsimp only; decide
    · split
      · refine ⟨?_, ?_⟩ <;> · dsimp only; decide
      · refine ⟨?_, ?_⟩ <;> · dsimp only; decide

/-- Claim C10: with a strength difference above 15 but not above 25 the
analyzer returns the "Double Chance" safety bet with confidence exactly
75 and odds in [1.7, 2.0], regardless of form or goals statistics. -/
theorem C10_safety_bet (cache : Cache) (home_team away_team : String)
    (rh ra : StatsRand) (u : ℚ) (hu0 : 0 ≤ u) (hu1 : u ≤ 1)
    (h1 : strength_diff_of
        ((analyze_match cache home_team away_team rh ra u).1).homeStats
        ((analyze_match cache home_team away_team rh ra u).1).awayStats > 15)
    (h2 : ¬ strength_diff_of
        ((analyze_match cache home_team away_team rh ra u).1).homeStats
        ((analyze_match cache home_team away_team rh ra u).1).awayStats > 25) :
    ((analyze_match cache home_team away_team rh ra u).1).recommendation.bet
      = "Double Chance" ∧
    ((analyze_match cache home_team away_team rh ra u).1).recommendation.type
      = "Safety Bet" ∧
    ((analyze_match cache home_team away_team rh ra u).1).recommendation.confidence
      = 75 ∧
    17/10 ≤ ((analyze_match cache home_team away_team rh ra u).1).recommendation.odds ∧
    ((analyze_match cache home_team away_team rh ra u).1).recommendation.odds ≤ 2 := by
  have e : ((analyze_match cache home_team away_team rh ra u).1).recommendation
      = generate_smart_recommendation home_team away_team
          ((analyze_match cache home_team away_team rh ra u).1).homeStats
          ((analyze_match cache home_team away_team rh ra u).1).awayStats
          (strength_diff_of
            ((analyze_match cache home_team away_team rh ra u).1).homeStats
            ((analyze_match cache home_team away_team rh ra u).1).awayStats) u := rfl
  rw [e]
  unfold generate_smart_recommendation
  dsimp only
  rw [if_neg h2, if_pos h1]
  have hlo : (17/10 : ℚ) ≤ uniform 1.7 2.0 u := by
    unfold uniform
    nlinarith
  have hhi : uniform 1.7 2.0 u ≤ 2 := by
    unfold uniform
    nlinarith
  have e170 : ((170 : ℤ) : ℚ) / 10 ^ 2 = 17/10 := by push_cast; norm_num
  have e200 : ((200 : ℤ) : ℚ) / 10 ^ 2 = 2 := by push_cast; norm_num
  refine ⟨rfl, rfl, rfl, ?_, ?_⟩
  · have h := le_pyRound (a := 170) (d := 2) (q := uniform 1.7 2.0 u) (by rw [e170]; exact hlo)
    rw [e170] at h
    exact h
  · have h := pyRound_le (b := 200) (d := 2) (q := uniform 1.7 2.0 u) (by rw [e200]; exact hhi)
    rw [e200] at h
    exact h

/-- Witness for `C10_safety_bet` at concrete draws giving strength
difference 17. -/
theorem C10_safety_bet_witness :
    ((analyze_match [] "Real Madrid" "Team X" randC1h randC1a 0).1).recommendation.bet
      = "Double Chance" ∧
    ((analyze_match [] "Real Madrid" "Team X" randC1h randC1a 0).1).recommendation.type
      = "Safety Bet" ∧
    ((analyze_match [] "Real Madrid" "Team X" randC1h randC1a 0).1).recommendation.confidence
      = 75 ∧
    17/10 ≤ ((analyze_match [] "Real Madrid" "Team X" randC1h randC1a 0).1).recommendation.odds ∧
    ((analyze_match [] "Real Madrid" "Team X" randC1h randC1a 0).1).recommendation.odds ≤ 2 :=
  C10_safety_bet [] "Real Madrid" "Team X" randC1h randC1a 0 (by norm_num) (by norm_num)
    (by decide) (by decide)

theorem one_le_generate_realistic_odds {lo hi t : ℚ} (h1 : 1 ≤ lo) (hlh : lo ≤ hi)
    (h0 : 0 ≤ t) (_ht1 : t ≤ 1) : 1 ≤ generate_realistic_odds lo hi t := by
  unfold generate_realistic_odds
  have hx : 1 ≤ t * (hi - lo) + lo := by nlinarith
  have hy : 1 ≤ uniform lo hi t := by unfold uniform; nlinarith
  have e100 : ((100 : ℤ) : ℚ) / 10 ^ 2 = 1 := by push_cast; norm_num
  split
  · have h := le_pyRound (a := 100) (d := 2) (q := t * (hi - lo) + lo) (by rw [e100]; exact hx)
    rw [e100] at h
    exact h
  · have h := le_pyRound (a := 100) (d := 2) (q := uniform lo hi t) (by rw [e100]; exact hy)
    rw [e100] at h
    exact h

theorem build_matches_odds_ok (rng : ℕ → SynthRand) (hv : ∀ i, (rng i).Valid) :
    ∀ (ts : List (String × String × String)) (i : ℕ),
      ((build_matches rng i ts).all odds_ok) = true := by
  intro ts
  induction ts with
  | nil => intro i; rfl
  | cons t rest ih =>
    intro i
    obtain ⟨hm, h1, h2, h3, h4, h5, h6⟩ := hv i
    simp only [build_matches, List.all_cons, Bool.and_eq_true]
    refine ⟨?_, ih (i + 1)⟩
    simp only [odds_ok, sample_fixture, Bool.or_eq_true, Bool.and_eq_true,
      decide_eq_true_eq]
    right
    refine ⟨⟨?_, ?_⟩, ?_⟩
    · exact one_le_generate_realistic_odds (by norm_num) (by norm_num) h1 h2
    · exact one_le_generate_realistic_odds (by norm_num) (by norm_num) h3 h4
    · exact one_le_generate_realistic_odds (by norm_num) (by norm_num) h5 h6

/-- Counterexample to claim C6: on a day with no scheduled pool (here a
Thursday) with every provider failing, `getMatches` returns the single
INFO placeholder record, whose three odds fields are 0 — not ≥ 1.0. -/
theorem C6_counterexample :
    get_todays_matches [Except.error "timeout"] none 3 "Thursday" "October 16"
        (fun _ => ⟨0, 0, 0, 0⟩)
      = [info_fixture "Thursday" "October 16"] ∧
    (info_fixture "Thursday" "October 16").status = "INFO" ∧
    (info_fixture "Thursday" "October 16").homeOdds < 1 ∧
    (info_fixture "Thursday" "October 16").drawOdds < 1 ∧
    (info_fixture "Thursday" "October 16").awayOdds < 1 := by
  refine ⟨rfl, rfl, ?_, ?_, ?_⟩ <;>
  · show (0 : ℚ) < 1
    norm_num

theorem get_intelligent_matches_odds_ok (league_filter : Option String)
    (day_of_week : ℕ) (dayName monthDay : String) (rng : ℕ → SynthRand)
    (hv : ∀ i, (rng i).Valid) :
    ((get_intelligent_matches league_filter day_of_week dayName monthDay rng).all odds_ok)
      = true := by
  unfold get_intelligent_matches
  dsimp only
  split
  · rfl
  · exact build_matches_odds_ok rng hv _ 0

theorem process_football_data_go_odds_ok (league_filter : Option String)
    (rng : ℕ → OddsDraws) (hv : ∀ i, (rng i).Valid) :
    ∀ (raw : List FDRawMatch) (k : ℕ),
      ((process_football_data_go league_filter rng k raw).all odds_ok) = true := by
  intro raw
  induction raw with
  | nil => intro k; rfl
  | cons m rest ih =>
    intro k
    obtain ⟨h1, h2, h3, h4, h5, h6⟩ := hv k
    unfold process_football_data_go
    split
    · split
      · exact ih k
      · simp only [List.all_cons, Bool.and_eq_true]
        refine ⟨?_, ih (k + 1)⟩
        simp only [odds_ok, Bool.or_eq_true, Bool.and_eq_true, decide_eq_true_eq]
        right
        refine ⟨⟨?_, ?_⟩, ?_⟩
        · exact one_le_generate_realistic_odds (by norm_num) (by norm_num) h1 h2
        · exact one_le_generate_realistic_odds (by norm_num) (by norm_num) h3 h4
        · exact one_le_generate_realistic_odds (by norm_num) (by norm_num) h5 h6
    · exact ih k

theorem process_football_data_matches_odds_ok (raw : List FDRawMatch)
    (league_filter : Option String) (rng : ℕ → OddsDraws) (hv : ∀ i, (rng i).Valid) :
    ((process_football_data_matches raw league_filter rng).all odds_ok) = true :=
  process_football_data_go_odds_ok league_filter rng hv (raw.take 15) 0

theorem process_rapidapi_go_odds_ok (league_filter : Option String)
    (rng : ℕ → OddsDraws) (hv : ∀ i, (rng i).Valid) :
    ∀ (raw : List RARawFixture) (k : ℕ),
      ((process_rapidapi_go league_filter rng k raw).all odds_ok) = true := by
  intro raw
  induction raw with
  | nil => intro k; rfl
  | cons m rest ih =>
    intro k
    obtain ⟨h1, h2, h3, h4, h5, h6⟩ := hv k
    unfold process_rapidapi_go
    split
    · exact ih k
    · simp only [List.all_cons, Bool.and_eq_true]
      refine ⟨?_, ih (k + 1)⟩
      simp only [odds_ok, Bool.or_eq_true, Bool.and_eq_true, decide_eq_true_eq]
      right
      refine ⟨⟨?_, ?_⟩, ?_⟩
      · exact one_le_generate_realistic_odds (by norm_num) (by norm_num) h1 h2
      · exact one_le_generate_realistic_odds (by norm_num) (by norm_num) h3 h4
      · exact one_le_generate_realistic_odds (by norm_num) (by norm_num) h5 h6

theorem process_rapidapi_matches_odds_ok (raw : List RARawFixture)
    (league_filter : Option String) (rng : ℕ → OddsDraws) (hv : ∀ i, (rng i).Valid) :
    ((process_rapidapi_matches raw league_filter rng).all odds_ok) = true :=
  process_rapidapi_go_odds_ok league_filter rng hv (raw.take 15) 0

theorem process_sportmonks_go_odds_ok (league_filter : Option String)
    (rng : ℕ → OddsDraws) (hv : ∀ i, (rng i).Valid) :
    ∀ (raw : List SMRawFixture) (k : ℕ),
      ((process_sportmonks_go league_filter rng k raw).all odds_ok) = true := by
  intro raw
  induction raw with
  | nil => intro k; rfl
  | cons m rest ih =>
    intro k
    obtain ⟨h1, h2, h3, h4, h5, h6⟩ := hv k
    unfold process_sportmonks_go
    split
    · split
      · exact ih k
      · simp only [List.all_cons, Bool.and_eq_true]
        refine ⟨?_, ih (k + 1)⟩
        simp only [odds_ok, Bool.or_eq_true, Bool.and_eq_true, decide_eq_true_eq]
        right
        refine ⟨⟨?_, ?_⟩, ?_⟩
        · exact one_le_generate_realistic_odds (by norm_num) (by norm_num) h1 h2
        · exact one_le_generate_realistic_odds (by norm_num) (by norm_num) h3 h4
        · exact one_le_generate_realistic_odds (by norm_num) (by norm_num) h5 h6
    · exact ih k

theorem process_sportmonks_matches_odds_ok (raw : List SMRawFixture)
    (league_filter : Option String) (rng : ℕ → OddsDraws) (hv : ∀ i, (rng i).Valid) :
    ((process_sportmonks_matches raw league_filter rng).all odds_ok) = true :=
  process_sportmonks_go_odds_ok league_filter rng hv (raw.take 15) 0

theorem process_openliga_go_odds_ok (rng : ℕ → OddsDraws) (hv : ∀ i, (rng i).Valid) :
    ∀ (raw : List OLRawMatch) (k : ℕ),
      ((process_openliga_go rng k raw).all odds_ok) = true := by
  intro raw
  induction raw with
  | nil => intro k; rfl
  | cons m rest ih =>
    intro k
    obtain ⟨h1, h2, h3, h4, h5, h6⟩ := hv k
    simp only [process_openliga_go, List.all_cons, Bool.and_eq_true]
    refine ⟨?_, ih (k + 1)⟩
    simp only [odds_ok, Bool.or_eq_true, Bool.and_eq_true, decide_eq_true_eq]
    right
    refine ⟨⟨?_, ?_⟩, ?_⟩
    · exact one_le_generate_realistic_odds (by norm_num) (by norm_num) h1 h2
    · exact one_le_generate_realistic_odds (by norm_num) (by norm_num) h3 h4
    · exact one_le_generate_realistic_odds (by norm_num) (by norm_num) h5 h6

theorem process_openliga_matches_odds_ok (raw : List OLRawMatch)
    (rng : ℕ → OddsDraws) (hv : ∀ i, (rng i).Valid) :
    ((process_openliga_matches raw rng).all odds_ok) = true :=
  process_openliga_go_odds_ok rng hv (raw.take 10) 0

/-- The all-zero synthetic draw, valid for every field. -/
theorem zero_synth_valid : (⟨0, 0, 0, 0⟩ : SynthRand).Valid := by
  unfold SynthRand.Valid
  norm_num

/-- The all-zero provider odds draw is in range. -/
theorem zero_odds_valid : zero_odds_draws.Valid := by
  unfold OddsDraws.Valid zero_odds_draws
  norm_num

/-- Claim C6 as amended: every fixture in every list returned by
`get_todays_matches` — through any provider normalizer (each synthesizes
its odds locally above the minima 1.4 / 2.8 / 1.8, whatever the raw
payload) or through the synthetic fallback (minima 1.5 / 3.0 / 2.0) —
has homeOdds, drawOdds and awayOdds all ≥ 1.0, with the sole exception
of the single INFO placeholder record, whose three odds are 0. -/
theorem C6_odds_floor (sources : List (Except String (List MatchFixture)))
    (league_filter : Option String) (day_of_week : ℕ) (dayName monthDay : String)
    (rng : ℕ → SynthRand) (hs : ∀ s ∈ sources, reachable_source s)
    (hv : ∀ i, (rng i).Valid) :
    ((get_todays_matches sources league_filter day_of_week dayName monthDay rng).all
      odds_ok) = true := by
  revert hs
  induction sources with
  | nil =>
    intro _
    exact get_intelligent_matches_odds_ok league_filter day_of_week dayName monthDay rng hv
  | cons s rest ih =>
    intro hs
    have hhead : reachable_source s := hs s (by simp)
    have htail : ∀ x ∈ rest, reachable_source x :=
      fun x hx => hs x (List.mem_cons_of_mem s hx)
    cases s with
    | error e => exact ih htail
    | ok ms =>
      cases ms with
      | nil => exact ih htail
      | cons a l =>
        show ((a :: l).all odds_ok) = true
        rcases hhead with ⟨e, habs⟩ | habs | ⟨raw, f, rg, hvr, heq⟩ |
          ⟨raw, f, rg, hvr, heq⟩ | ⟨raw, f, rg, hvr, heq⟩ | ⟨raw, rg, hvr, heq⟩
        · exact Except.noConfusion habs
        · injection habs with h
          exact List.noConfusion h
        · injection heq with h
          rw [h]
          exact process_football_data_matches_odds_ok raw f rg hvr
        · injection heq with h
          rw [h]
          exact process_rapidapi_matches_odds_ok raw f rg hvr
        · injection heq with h
          rw [h]
          exact process_sportmonks_matches_odds_ok raw f rg hvr
        · injection heq with h
          rw [h]
          exact process_openliga_matches_odds_ok raw rg hvr

/-- Witness for `C6_odds_floor`: a Football-Data provider returning one
normalized record (so the provider path is taken), on a Wednesday. -/
theorem C6_odds_floor_witness :
    ((get_todays_matches
        [Except.ok (process_football_data_matches [fd_raw_example] none
          (fun _ => zero_odds_draws))]
        none 2 "Wednesday" "October 15" (fun _ => ⟨0, 0, 0, 0⟩)).all odds_ok) = true :=
  C6_odds_floor
    [Except.ok (process_football_data_matches [fd_raw_example] none
      (fun _ => zero_odds_draws))]
    none 2 "Wednesday" "October 15" (fun _ => ⟨0, 0, 0, 0⟩)
    (fun s hsM => by
      rw [List.mem_singleton.mp hsM]
      exact Or.inr (Or.inr (Or.inl ⟨[fd_raw_example], none, fun _ => zero_odds_draws,
        fun _ => zero_odds_valid, rfl⟩)))
    (fun _ => zero_synth_valid)

theorem all_matches_lookup_ne_nil {f : String} {l : List (String × String × String)}
    (h : all_matches.lookup f = some l) : l ≠ [] := by
  simp only [all_matches, List.lookup] at h
  repeat' split at h
  all_goals cases h
  all_goals decide

theorem get_intelligent_matches_ne_nil (league_filter : Option String) (day_of_week : ℕ)
    (dayName monthDay : String) (rng : ℕ → SynthRand) :
    get_intelligent_matches league_filter day_of_week dayName monthDay rng ≠ [] := by
  unfold get_intelligent_matches
  dsimp only
  split
  · simp
  · rename_i ts heq
    have hne : ts ≠ [] := by
      repeat' split at heq
      · rename_i l hlook
        cases heq
        rcases league_filter with _ | f
        · exact Option.noConfusion hlook
        · dsimp only at hlook
          split at hlook
          · exact Option.noConfusion hlook
          · exact all_matches_lookup_ne_nil hlook
      · cases heq
        decide
      · exact all_matches_lookup_ne_nil heq
      · exact Option.noConfusion heq
    cases ts with
    | nil => exact absurd rfl hne
    | cons t rest => simp [build_matches]

theorem get_todays_matches_all_failed (sources : List (Except String (List MatchFixture)))
    (league_filter : Option String) (day_of_week : ℕ) (dayName monthDay : String)
    (rng : ℕ → SynthRand) :
    sources.all source_failed = true →
    get_todays_matches sources league_filter day_of_week dayName monthDay rng
      = get_intelligent_matches league_filter day_of_week dayName monthDay rng := by
  induction sources with
  | nil => intro _; rfl
  | cons s rest ih =>
    intro h
    rw [List.all_cons, Bool.and_eq_true] at h
    obtain ⟨h1, h2⟩ := h
    cases s with
    | error err => exact ih h2
    | ok ms =>
      have hms : ms = [] := by
        cases ms with
        | nil => rfl
        | cons a l => exact absurd h1 (by simp [source_failed])
      subst hms
      exact ih h2

/-- Claim C7: when every provider source fails or returns an empty list,
`get_todays_matches` never raises (it is total by construction, each
source's exception being caught) and returns the synthetic generator's
list, which is never empty. -/
theorem C7_never_empty (sources : List (Except String (List MatchFixture)))
    (league_filter : Option String) (day_of_week : ℕ) (dayName monthDay : String)
    (rng : ℕ → SynthRand) (h : sources.all source_failed = true) :
    get_todays_matches sources league_filter day_of_week dayName monthDay rng
      = get_intelligent_matches league_filter day_of_week dayName monthDay rng ∧
    get_todays_matches sources league_filter day_of_week dayName monthDay rng ≠ [] := by
  have e := get_todays_matches_all_failed sources league_filter day_of_week dayName
    monthDay rng h
  refine ⟨e, ?_⟩
  rw [e]
  exact get_intelligent_matches_ne_nil league_filter day_of_week dayName monthDay rng

/-- Witness for `C7_never_empty`: a raising provider followed by an
empty-result provider, on a Monday (INFO-placeholder day). -/
theorem C7_never_empty_witness :
    get_todays_matches [Except.error "ProviderError", Except.ok []] none 0 "Monday"
        "October 13" (fun _ => ⟨0, 0, 0, 0⟩)
      = get_intelligent_matches none 0 "Monday" "October 13" (fun _ => ⟨0, 0, 0, 0⟩) ∧
    get_todays_matches [Except.error "ProviderError", Except.ok []] none 0 "Monday"
        "October 13" (fun _ => ⟨0, 0, 0, 0⟩) ≠ [] :=
  C7_never_empty [Except.error "ProviderError", Except.ok []] none 0 "Monday"
    "October 13" (fun _ => ⟨0, 0, 0, 0⟩) rfl
